import Mathlib

/-!
Verification development for the AURION conversational orchestration core
(repository Malothu-yash/Aurion-26, backend under AURION-Backend/app).

The Python sources are shallowly embedded as executable Lean functions:
  * strings are Lean strings, scanned as lists of characters with ASCII
    semantics (all data handled by the embedded code paths is ASCII);
  * instants are natural numbers counting whole seconds in UTC
    (the code zeroes microseconds in every branch whose value matters here);
  * float confidences are embedded as rationals (the code only ever copies
    fixed literals, it never computes with them);
  * calls to external services (classifier backends, the fuzzy dateutil
    date parse, reminder scheduling) are oracle parameters;
  * Python exceptions that the code lets escape are modelled with Except,
    and the try/except blocks of the sources are modelled where they stand.
Lightweight bookkeeping the claims never touch (log lines, iso timestamp
metadata fields such as created_at/updated_at and cost accounting) is not
modelled; everything else follows the cited sources line by line.
-/

namespace Aurion

/-! ## Python string primitives (ASCII semantics) -/

/-- Apostrophe character, used in several phrase constants of the sources. -/
def apos : Char := Char.ofNat 39

/-- Glue two string pieces with an apostrophe between them. -/
def aposS (a b : String) : String := a ++ String.singleton apos ++ b

/-- ASCII lowercasing of one character, as Python str.lower on ASCII data. -/
def pyLowerChar (c : Char) : Char :=
  if 'A' ≤ c ∧ c ≤ 'Z' then Char.ofNat (c.toNat + 32) else c

/-- Python whitespace class (re and str.split): space, tab, LF, CR, VT, FF. -/
def isPySpace (c : Char) : Bool :=
  c = ' ' || c = Char.ofNat 9 || c = Char.ofNat 10 || c = Char.ofNat 13 ||
  c = Char.ofNat 11 || c = Char.ofNat 12

/-- Python regex word character for the ASCII data at hand. -/
def isWordChar (c : Char) : Bool := c.isAlpha || c.isDigit || c = '_'

def lowerL (cs : List Char) : List Char := cs.map pyLowerChar

def pyLower (s : String) : String := ⟨lowerL s.data⟩

/-- Python str.strip with no argument: drop whitespace from both ends. -/
def stripL (cs : List Char) : List Char :=
  ((cs.dropWhile isPySpace).reverse.dropWhile isPySpace).reverse

def pyStrip (s : String) : String := ⟨stripL s.data⟩

/-- Python str.strip(chars): drop the given characters from both ends. -/
def stripSetL (set : List Char) (cs : List Char) : List Char :=
  ((cs.dropWhile (set.contains ·)).reverse.dropWhile (set.contains ·)).reverse

/-- Python str.rstrip(chars): drop the given characters from the right end. -/
def rstripSetL (set : List Char) (cs : List Char) : List Char :=
  (cs.reverse.dropWhile (set.contains ·)).reverse

def prefixL (p cs : List Char) : Bool := p.isPrefixOf cs

/-- Substring containment, as the Python operator in on strings. -/
def containsL (needle : List Char) : List Char → Bool
  | [] => prefixL needle []
  | c :: t => prefixL needle (c :: t) || containsL needle t

/-- hay contains needle as a substring. -/
def containsS (hay needle : String) : Bool := containsL needle.data hay.data

/-- s starts with p, as Python str.startswith. -/
def startsWithS (s p : String) : Bool := prefixL p.data s.data

/-- Python str.split with no argument: words separated by whitespace runs. -/
def wordsAux : List Char → List Char → List (List Char)
  | [], acc => if acc.isEmpty then [] else [acc.reverse]
  | c :: t, acc =>
    if isPySpace c then
      if acc.isEmpty then wordsAux t [] else acc.reverse :: wordsAux t []
    else wordsAux t (c :: acc)

def pyWords (s : String) : List (List Char) := wordsAux s.data []

/-- Number of whitespace-separated words, as len(s.split()). -/
def wordCount (s : String) : Nat := (pyWords s).length

/-- Python str.replace: replace every non-overlapping occurrence of the
pattern, scanning left to right.  The scan consumes one character per step;
a skip counter carries the residue of a multi-character match, so the
recursion is structural in the scanned list. -/
def replAllGo (pat rep : List Char) : Nat → List Char → List Char
  | _, [] => []
  | 0, c :: t =>
    if !pat.isEmpty && prefixL pat (c :: t) then
      rep ++ replAllGo pat rep (pat.length - 1) t
    else c :: replAllGo pat rep 0 t
  | k + 1, _ :: t => replAllGo pat rep k t

def replAllL (pat rep cs : List Char) : List Char := replAllGo pat rep 0 cs

def pyReplace (s pat rep : String) : String := ⟨replAllL pat.data rep.data s.data⟩

/-- Position sits at a regex word boundary coming from the given previous
character (none at the start of the text). -/
def boundaryB (prev : Option Char) : Bool :=
  match prev with
  | none => true
  | some c => !isWordChar c

/-- The text ahead starts at a word boundary (end of text or non-word char). -/
def boundaryA : List Char → Bool
  | [] => true
  | c :: _ => !isWordChar c

/-- Case-insensitive prefix test against an already lowercased pattern. -/
def prefixCI (pat cs : List Char) : Bool := prefixL pat (lowerL cs)

/-- re.sub of a word-bounded alternation by the empty string, matching
case-insensitively against lowercased patterns; mirrors re.sub of a
backslash-b delimited alternation with the IGNORECASE flag.  Replacement
scanning resumes right after each match, with the last matched character as
the boundary context; the skip counter carries the residue of a match as in
replAllGo, with the boundary context already advanced to the end of the
match. -/
def dropWordAnyGo (pats : List (List Char)) : Nat → Option Char → List Char → List Char
  | _, _, [] => []
  | 0, prev, c :: t =>
    match pats.find? (fun p =>
        !p.isEmpty && boundaryB prev && prefixCI p (c :: t) &&
        boundaryA ((c :: t).drop p.length)) with
    | some p => dropWordAnyGo pats (p.length - 1) (some (p.getLastD c)) t
    | none => c :: dropWordAnyGo pats 0 (some c) t
  | k + 1, prev, _ :: t => dropWordAnyGo pats k prev t

def dropWordAnyCI (pats : List String) (cs : List Char) : List Char :=
  dropWordAnyGo (pats.map String.data) 0 none cs

/-- Word-bounded case-sensitive search for a literal pattern, the semantics of
re.search of a backslash-b delimited literal over an already lowercased text. -/
def wordSearchGo (pat : List Char) : Option Char → List Char → Bool
  | prev, [] => boundaryB prev && prefixL pat [] && boundaryA []
  | prev, c :: t =>
    (boundaryB prev && prefixL pat (c :: t) && boundaryA ((c :: t).drop pat.length)) ||
    wordSearchGo pat (some c) t

def wordSearch (hay : List Char) (pat : String) : Bool :=
  wordSearchGo pat.data none hay

/-- re.sub of a whitespace run by a single space, the semantics of re.sub of
a one-or-more whitespace class over the whole string; the flag records
whether the scan stands inside a whitespace run already replaced. -/
def collapseWsGo : Bool → List Char → List Char
  | _, [] => []
  | inRun, c :: t =>
    if isPySpace c then
      if inRun then collapseWsGo true t else ' ' :: collapseWsGo true t
    else c :: collapseWsGo false t

def collapseWs (cs : List Char) : List Char := collapseWsGo false cs

/-- Value of a digit run, most significant first. -/
def natOfDigits (ds : List Char) : Nat :=
  ds.foldl (fun acc c => 10 * acc + (c.toNat - '0'.toNat)) 0

/-- Python str.title for the location gazetteer: uppercase a cased character
that follows a non-cased one, lowercase a cased character that follows a
cased one. -/
def pyTitleAux : Bool → List Char → List Char
  | _, [] => []
  | prevCased, c :: t =>
    if c.isAlpha then
      (if prevCased then pyLowerChar c else (pyLowerChar c).toUpper) :: pyTitleAux true t
    else c :: pyTitleAux false t

def pyTitle (s : String) : String := ⟨pyTitleAux false s.data⟩

/-- Uppercase one ASCII character, Python str.upper on a single character. -/
def pyUpperChar (c : Char) : Char :=
  if 'a' ≤ c ∧ c ≤ 'z' then Char.ofNat (c.toNat - 32) else c

/-- Python str.upper on ASCII data. -/
def pyUpperS (s : String) : String := ⟨s.data.map pyUpperChar⟩

/-! ## ConfirmationClassifier
(app/services/conversation_state.py, is_confirmation_phrase and
is_rejection_phrase) -/

/-- Direct confirmations list of is_confirmation_phrase. -/
def directConfirms : List String :=
  ["yes", "yeah", "yep", "yup", "sure", "ok", "okay", "fine",
   "correct", "right", "exactly", "perfect", "absolutely",
   "go ahead", "proceed", "please", "do it", "yes please"]

/-- Action confirmations list of is_confirmation_phrase. -/
def actionConfirms : List String :=
  ["create it", "make it", "set it", "do it", "schedule it",
   "add it", "confirm", "please do", "go for it", "create",
   "make", "set", "schedule", "add", "save it", "book it"]

/-- Positive phrases list of is_confirmation_phrase. -/
def positiveConfirms : List String :=
  ["sounds good", "looks good", aposS "that" "s right", aposS "that" "s correct",
   "all good", "perfect timing", "that works", "works for me",
   "good", "great", "awesome", "nice"]

/-- Rejection phrases list of is_rejection_phrase. -/
def rejectionPhrases : List String :=
  ["no", "nope", "nah", "cancel", "stop", "never mind", "nevermind",
   aposS "don" "t", "not now", "later", "forget it", "skip", "abort",
   "no thanks", "not really", "changed my mind", "not interested"]

/-- conversation_state.is_confirmation_phrase: exact membership in the direct
list, else substring containment of an action or positive phrase. -/
def is_confirmation_phrase (query : String) : Bool :=
  let ql := pyStrip (pyLower query)
  directConfirms.contains ql
  || actionConfirms.any (fun a => containsS ql a)
  || positiveConfirms.any (fun p => containsS ql p)

/-- conversation_state.is_rejection_phrase: substring containment of any
rejection phrase in the lowercased stripped query. -/
def is_rejection_phrase (query : String) : Bool :=
  let ql := pyStrip (pyLower query)
  rejectionPhrases.any (fun r => containsS ql r)

/-! ## TaskTimeParser
(app/services/natural_language_task_parser.py)

Instants are whole seconds in UTC.  Python datetime.replace with an
out-of-range hour or minute raises ValueError; such escapes are modelled with
Except.  The fuzzy dateutil parse of the last-resort branch is an oracle
parameter (and the claims below only ever instantiate it at inputs carrying
no date information, where dateutil raises, i.e. the oracle returns none). -/

/-- Consumption of a regex group requiring a whitespace or the end of text:
returns the consumed characters (one whitespace, or nothing at the end). -/
def wsOrEndTail : List Char → Option (List Char)
  | [] => some []
  | c :: _ => if isPySpace c then some [c] else none

def wsOrEndOk (cs : List Char) : Bool := (wsOrEndTail cs).isSome

/-- One or more whitespace characters, greedily; returns the remainder. -/
def wsPlus : List Char → Option (List Char)
  | [] => none
  | c :: t => if isPySpace c then some (t.dropWhile isPySpace) else none

/-- Generic leftmost regex search: try the position matcher at every suffix,
left to right, the empty final position included. -/
def scanPos {α : Type} (mf : List Char → Option α) : List Char → Option α
  | [] => mf []
  | c :: t =>
    match mf (c :: t) with
    | some r => some r
    | none => scanPos mf t

/-- Unit alternations of the relative-offset patterns, in source order. -/
def minuteUnits : List String := ["minute", "minutes", "min", "mins", "m"]

def hourUnits : List String := ["hour", "hours", "hr", "hrs", "h"]

def dayUnits : List String := ["day", "days", "d"]

/-- Position matcher for the relative-offset patterns, literally
in, one or more whitespace, a digit group, optional whitespace, a unit
alternative, then a whitespace or the end.  Returns the group value and the
whole matched span (the patterns in_minutes, in_hours, in_days of the
source, whose alternation order the unit list reproduces). -/
def matchRelHere (units : List String) : List Char → Option (Nat × List Char)
  | 'i' :: 'n' :: rest =>
    let ws1 := rest.takeWhile isPySpace
    let r1 := rest.dropWhile isPySpace
    let ds := r1.takeWhile Char.isDigit
    let r2 := r1.dropWhile Char.isDigit
    if ws1.isEmpty || ds.isEmpty then none
    else
      let ws2 := r2.takeWhile isPySpace
      let r3 := r2.dropWhile isPySpace
      match units.find? (fun u => prefixL u.data r3 && wsOrEndOk (r3.drop u.length)) with
      | some u =>
        let tail := (wsOrEndTail (r3.drop u.length)).getD []
        some (natOfDigits ds, 'i' :: 'n' :: (ws1 ++ ds ++ ws2 ++ u.data ++ tail))
      | none => none
  | _ => none

/-- Result of the 12-hour clock patterns at_time_12hr and
time_12hr_standalone: hour digits as typed, minute group (0 when absent),
meridiem, and the matched span. -/
structure TwelveHr where
  hourDigits : List Char
  minute : Nat
  period : String
  consumed : List Char
deriving Repr, DecidableEq

/-- The whitespace-then-meridiem tail of the 12-hour patterns; with trailing
set, the standalone pattern additionally requires a whitespace or the end
(the text was lowercased first, so only the lowercase alternatives fire). -/
def amPmHere (trailing : Bool) (cs : List Char) : Option (String × List Char) :=
  let ws := cs.takeWhile isPySpace
  let r := cs.dropWhile isPySpace
  let tryP : String → Option (String × List Char) := fun p =>
    if prefixL p.data r then
      let r2 := r.drop p.length
      if trailing then
        match wsOrEndTail r2 with
        | some tail => some (p, ws ++ p.data ++ tail)
        | none => none
      else some (p, ws ++ p.data)
    else none
  (tryP "am").orElse (fun _ => tryP "pm")

/-- Position matcher for the hour-minute-meridiem body, with the greedy
one-or-two-digit hour group and the optional colon-minutes group backtracked
in regex order (two digits before one, colon group taken before skipped). -/
def hm12Here (trailing : Bool) (cs : List Char) : Option TwelveHr :=
  let ds := cs.takeWhile Char.isDigit
  let tryLen : Nat → Option TwelveHr := fun k =>
    if k ≤ ds.length then
      let hd := cs.take k
      let rest := cs.drop k
      let withColon : Option TwelveHr :=
        match rest with
        | ':' :: r2 =>
          if 2 ≤ (r2.takeWhile Char.isDigit).length then
            match amPmHere trailing (r2.drop 2) with
            | some (p, tail) =>
              some ⟨hd, natOfDigits (r2.take 2), p, hd ++ ':' :: (r2.take 2 ++ tail)⟩
            | none => none
          else none
        | _ => none
      let noColon : Option TwelveHr :=
        match amPmHere trailing rest with
        | some (p, tail) => some ⟨hd, 0, p, hd ++ tail⟩
        | none => none
      withColon.orElse (fun _ => noColon)
    else none
  if ds.isEmpty then none else (tryLen 2).orElse (fun _ => tryLen 1)

/-- Position matcher for at_time_12hr: literal at, whitespace, then the
hour-minute-meridiem body without a trailing requirement. -/
def at12Here (cs : List Char) : Option TwelveHr :=
  match cs with
  | 'a' :: 't' :: rest =>
    let ws := rest.takeWhile isPySpace
    if ws.isEmpty then none
    else
      match hm12Here false (rest.dropWhile isPySpace) with
      | some m => some { m with consumed := 'a' :: 't' :: (ws ++ m.consumed) }
      | none => none
  | _ => none

/-- Result of the 24-hour clock patterns: hour and minute groups and span. -/
structure TwentyFourHr where
  hour : Nat
  minute : Nat
  consumed : List Char
deriving Repr, DecidableEq

/-- Position matcher for time_24hr_standalone: a greedy one-or-two-digit
hour group, a colon, a two-digit minute group. -/
def hm24Here (cs : List Char) : Option TwentyFourHr :=
  let ds := cs.takeWhile Char.isDigit
  let tryLen : Nat → Option TwentyFourHr := fun k =>
    if k ≤ ds.length then
      match cs.drop k with
      | ':' :: r2 =>
        if 2 ≤ (r2.takeWhile Char.isDigit).length then
          some ⟨natOfDigits (cs.take k), natOfDigits (r2.take 2),
                cs.take k ++ ':' :: r2.take 2⟩
        else none
      | _ => none
    else none
  if ds.isEmpty then none else (tryLen 2).orElse (fun _ => tryLen 1)

/-- Position matcher for at_time_24hr: literal at, whitespace, hour colon
minutes. -/
def at24Here (cs : List Char) : Option TwentyFourHr :=
  match cs with
  | 'a' :: 't' :: rest =>
    let ws := rest.takeWhile isPySpace
    if ws.isEmpty then none
    else
      match hm24Here (rest.dropWhile isPySpace) with
      | some m => some { m with consumed := 'a' :: 't' :: (ws ++ m.consumed) }
      | none => none
  | _ => none

/-- Result of the bare-hour pattern at_hour_only. -/
structure HourOnly where
  hour : Nat
  consumed : List Char
deriving Repr, DecidableEq

/-- Position matcher for at_hour_only: literal at, whitespace, a greedy
one-or-two-digit group, a negative lookahead for a colon, then a whitespace
or the end. -/
def atHourHere (cs : List Char) : Option HourOnly :=
  match cs with
  | 'a' :: 't' :: rest =>
    let ws := rest.takeWhile isPySpace
    let r1 := rest.dropWhile isPySpace
    let ds := r1.takeWhile Char.isDigit
    let tryLen : Nat → Option HourOnly := fun k =>
      if k ≤ ds.length then
        let after := r1.drop k
        match after with
        | [] => some ⟨natOfDigits (r1.take k), 'a' :: 't' :: (ws ++ r1.take k)⟩
        | c :: _ =>
          if c = ':' then none
          else if isPySpace c then
            some ⟨natOfDigits (r1.take k), 'a' :: 't' :: (ws ++ r1.take k ++ [c])⟩
          else none
      else none
    if ws.isEmpty || ds.isEmpty then none
    else (tryLen 2).orElse (fun _ => tryLen 1)
  | _ => none

/-- Day-reference scan of _extract_time, lines 135-154 of the source: the
if/elif chain over substring tests, producing a day offset, an optional hour
override, and the remembered day keyword. -/
structure DayRef where
  dayOffset : Nat
  hourOverride : Option Nat
  dayKeyword : Option String
deriving Repr, DecidableEq

def dayRefOf (ql : List Char) : DayRef :=
  if containsL "tomorrow".data ql then ⟨1, none, some "tomorrow"⟩
  else if containsL "tonight".data ql then ⟨0, some 21, some "tonight"⟩
  else if containsL "today".data ql then ⟨0, none, some "today"⟩
  else if containsL "this evening".data ql then ⟨0, some 18, none⟩
  else if containsL "this morning".data ql then ⟨0, some 8, none⟩
  else if containsL "this afternoon".data ql then ⟨0, some 14, none⟩
  else ⟨0, none, none⟩

def secsPerDay : Nat := 86400

/-- datetime.replace(hour, minute, second=0, microsecond=0) on the
seconds-in-UTC model; out-of-range fields raise ValueError. -/
def dtReplaceHM (now h m : Nat) : Except String Nat :=
  if 24 ≤ h then .error "hour must be in 0..23"
  else if 60 ≤ m then .error "minute must be in 0..59"
  else .ok ((now / secsPerDay) * secsPerDay + h * 3600 + m * 60)

/-- Zero-padded two-digit rendering. -/
def two (n : Nat) : String := if n < 10 then "0" ++ toString n else toString n

/-- The 12-hour display hour, hour mod 12 or 12. -/
def disp12 (h : Nat) : Nat := if h % 12 = 0 then 12 else h % 12

def periodOf (h : Nat) : String := if h < 12 then "AM" else "PM"

/-- Civil date from a day count since 1970-01-01 (standard era algorithm),
for the strftime rendering of the fuzzy branch only. -/
def civilFromDays (z0 : Nat) : Nat × Nat × Nat :=
  let z := z0 + 719468
  let era := z / 146097
  let doe := z % 146097
  let yoe := (doe - doe / 1460 + doe / 36524 - doe / 146097) / 365
  let doy := doe - (365 * yoe + yoe / 4 - yoe / 100)
  let mp := (5 * doy + 2) / 153
  let d := doy - (153 * mp + 2) / 5 + 1
  let m := if mp < 10 then mp + 3 else mp - 9
  (yoe + era * 400 + (if m ≤ 2 then 1 else 0), m, d)

/-- Month abbreviations for the strftime rendering of the fuzzy branch. -/
def monthAbbrev : List String :=
  ["Jan", "Feb", "Mar", "Apr", "May", "Jun", "Jul", "Aug", "Sep", "Oct", "Nov", "Dec"]

/-- strftime of the fuzzy branch, month-abbrev day at 12-hour time. -/
def strftimeBD (t : Nat) : String :=
  let md := civilFromDays (t / secsPerDay)
  let hh := (t % secsPerDay) / 3600
  let mm := (t % 3600) / 60
  monthAbbrev.getD (md.2.1 - 1) "Jan" ++ " " ++ two md.2.2 ++ " at " ++
    two (disp12 hh) ++ ":" ++ two mm ++ " " ++ periodOf hh

/-- The time-extraction result dictionary of _extract_time. -/
structure TimeInfo where
  scheduled : Option Nat
  display : Option String
  originalStr : Option String
  confidence : ℚ
  needsClar : Bool
  clarType : Option String
deriving Repr, DecidableEq

/-- Task verbs of the parser, in source order. -/
def taskVerbs : List String :=
  ["remind", "tell", "notify", "alert", "ping", "wake", "call",
   "text", "message", "email", "alarm", "schedule", "book",
   "remember", aposS "don" "t forget", "note", "jot down", "set", "create"]

/-- natural_language_task_parser._extract_time: the layered pattern cascade,
with the trailing dateutil fuzzy parse as the oracle fz. -/
def extract_time (query : String) (now : Nat) (fz : String → Option Nat) :
    Except String TimeInfo :=
  let ql := lowerL query.data
  match scanPos (matchRelHere minuteUnits) ql with
  | some (n, g0) =>
    .ok ⟨some (now + 60 * n),
         some ("in " ++ toString n ++ " minute" ++ (if n ≠ 1 then "s" else "")),
         some ⟨stripL g0⟩, 1, false, none⟩
  | none =>
  match scanPos (matchRelHere hourUnits) ql with
  | some (n, g0) =>
    .ok ⟨some (now + 3600 * n),
         some ("in " ++ toString n ++ " hour" ++ (if n ≠ 1 then "s" else "")),
         some ⟨stripL g0⟩, 1, false, none⟩
  | none =>
  match scanPos (matchRelHere dayUnits) ql with
  | some (n, g0) =>
    .ok ⟨some (now + secsPerDay * n),
         some ("in " ++ toString n ++ " day" ++ (if n ≠ 1 then "s" else "")),
         some ⟨stripL g0⟩, 1, false, none⟩
  | none =>
  let dr := dayRefOf ql
  match (scanPos at12Here ql).orElse (fun _ => scanPos (hm12Here true) ql) with
  | some m =>
    let hour0 := natOfDigits m.hourDigits
    let hour :=
      if m.period = "pm" ∧ hour0 ≠ 12 then hour0 + 12
      else if m.period = "am" ∧ hour0 = 12 then 0
      else hour0
    match dtReplaceHM now hour m.minute with
    | .error e => .error e
    | .ok t0 =>
      let t1 := t0 + dr.dayOffset * secsPerDay
      let t2 := if t1 < now ∧ dr.dayOffset = 0 then t1 + secsPerDay else t1
      let ts := String.mk m.hourDigits ++ ":" ++ two m.minute ++ " " ++ pyUpperS m.period
      let ts2 := match dr.dayKeyword with | some k => k ++ " at " ++ ts | none => ts
      .ok ⟨some t2, some ts2, some ⟨stripL m.consumed⟩, 1, false, none⟩
  | none =>
  match (scanPos at24Here ql).orElse (fun _ => scanPos hm24Here ql) with
  | some m =>
    match dtReplaceHM now m.hour m.minute with
    | .error e => .error e
    | .ok t0 =>
      let t1 := t0 + dr.dayOffset * secsPerDay
      let t2 := if t1 < now ∧ dr.dayOffset = 0 then t1 + secsPerDay else t1
      let ts := toString (disp12 m.hour) ++ ":" ++ two m.minute ++ " " ++ periodOf m.hour
      let ts2 := match dr.dayKeyword with | some k => k ++ " at " ++ ts | none => ts
      .ok ⟨some t2, some ts2, some ⟨stripL m.consumed⟩, 0.95, false, none⟩
  | none =>
  match scanPos atHourHere ql with
  | some m =>
    let h1 :=
      if 1 ≤ m.hour ∧ m.hour ≤ 7 then
        if containsL "morning".data ql || containsL "am".data ql then m.hour
        else m.hour + 12
      else if 8 ≤ m.hour ∧ m.hour ≤ 11 then
        if containsL "pm".data ql || containsL "evening".data ql ||
           containsL "night".data ql then m.hour + 12
        else m.hour
      else m.hour
    match dtReplaceHM now h1 0 with
    | .error e => .error e
    | .ok t0 =>
      let t1 := t0 + dr.dayOffset * secsPerDay
      let t2 := if t1 < now ∧ dr.dayOffset = 0 then t1 + secsPerDay else t1
      let ts := toString (disp12 h1) ++ ":00 " ++ periodOf h1
      let ts2 := match dr.dayKeyword with | some k => k ++ " at " ++ ts | none => ts
      .ok ⟨some t2, some ts2, some ⟨stripL m.consumed⟩, 0.75, false, none⟩
  | none =>
  match dr.hourOverride with
  | some ho =>
    match dtReplaceHM now ho 0 with
    | .error e => .error e
    | .ok t0 =>
      let t1 := t0 + dr.dayOffset * secsPerDay
      let t2 := if t1 < now then t1 + secsPerDay else t1
      let ts := (dr.dayKeyword.getD "today") ++ " at " ++ toString (disp12 ho) ++
        ":00 " ++ periodOf ho
      .ok ⟨some t2, some ts, some (dr.dayKeyword.getD "tonight"), 0.8, false, none⟩
  | none =>
  let tq0 := taskVerbs.foldl (fun s v => pyReplace s v "") ⟨ql⟩
  let tq : String := ⟨dropWordAnyCI ["me", "to", "about"] tq0.data⟩
  match fz tq with
  | some d =>
    let d2 := if d < now ∧ d / secsPerDay = now / secsPerDay then d + secsPerDay else d
    .ok ⟨some d2, some (strftimeBD d2), some (pyStrip tq), 0.6, false, none⟩
  | none =>
    .ok ⟨none, none, none, 0, true, some "time"⟩

/-! Description extraction (_extract_description): six anchored
case-insensitive verb-phrase removals applied in sequence, removal of the
matched time span, word-bounded day-keyword removal, removal of dangling
time prepositions, whitespace normalisation, punctuation trim,
capitalisation, and the Task default. -/

/-- Case-insensitive anchored literal word; returns the remainder on match. -/
def stripWordCI (w : String) (cs : List Char) : Option (List Char) :=
  if prefixCI w.data cs then some (cs.drop w.length) else none

/-- An optional word-plus-whitespace group: consume it when the whole group
matches, else leave the text unchanged. -/
def optWordWs (w : String) (cs : List Char) : List Char :=
  match stripWordCI w cs with
  | some r => match wsPlus r with | some r2 => r2 | none => cs
  | none => cs

/-- A required word-plus-whitespace piece. -/
def reqWordWs (w : String) (cs : List Char) : Option (List Char) :=
  match stripWordCI w cs with
  | some r => wsPlus r
  | none => none

/-- Removal pattern 1: an anchored contact-verb alternation, whitespace,
optional me, optional to. -/
def stripPat1 (cs : List Char) : List Char :=
  match ["remind", "tell", "notify", "alert", "ping", "wake", "call",
         "text", "message"].findSome? (fun v => reqWordWs v cs) with
  | some r => optWordWs "to" (optWordWs "me" r)
  | none => cs

/-- Removal pattern 2: optional set, optional a, a reminder-noun
alternation, whitespace, optional to, optional for. -/
def stripPat2 (cs : List Char) : List Char :=
  let r2 := optWordWs "a" (optWordWs "set" cs)
  match ["reminder", "alarm", "task", "notification"].findSome?
      (fun w => reqWordWs w r2) with
  | some r3 => optWordWs "for" (optWordWs "to" r3)
  | none => cs

/-- Removal pattern 3: anchored do-not-forget-to. -/
def stripPat3 (cs : List Char) : List Char :=
  match reqWordWs (aposS "don" "t") cs with
  | some r1 =>
    match reqWordWs "forget" r1 with
    | some r2 =>
      match reqWordWs "to" r2 with
      | some r3 => r3
      | none => cs
    | none => cs
  | none => cs

/-- Removal pattern 4: anchored remember-to. -/
def stripPat4 (cs : List Char) : List Char :=
  match reqWordWs "remember" cs with
  | some r1 =>
    match reqWordWs "to" r1 with
    | some r2 => r2
    | none => cs
  | none => cs

/-- Removal pattern 5: anchored schedule, optional a, optional reminder,
optional to. -/
def stripPat5 (cs : List Char) : List Char :=
  match reqWordWs "schedule" cs with
  | some r1 => optWordWs "to" (optWordWs "reminder" (optWordWs "a" r1))
  | none => cs

/-- Removal pattern 6: anchored create, optional a, optional reminder,
optional to. -/
def stripPat6 (cs : List Char) : List Char :=
  match reqWordWs "create" cs with
  | some r1 => optWordWs "to" (optWordWs "reminder" (optWordWs "a" r1))
  | none => cs

/-- Day keywords removed from descriptions, in source order. -/
def dayKeywords : List String :=
  ["tomorrow", "today", "tonight", "this evening", "this morning", "this afternoon"]

/-- The dangling-preposition removal: every whitespace run followed by
at, in or on and then more whitespace or the end collapses to one space.
The match length is computed up front and consumed through the skip counter
as in replAllGo. -/
def replPrepGo : Nat → List Char → List Char
  | _, [] => []
  | 0, c :: t =>
    if isPySpace c then
      let ws := (c :: t).takeWhile isPySpace
      let r := (c :: t).dropWhile isPySpace
      match ["at", "in", "on"].find?
          (fun w => prefixL w.data r && wsOrEndOk (r.drop w.length)) with
      | some w =>
        ' ' :: replPrepGo
          (ws.length + w.length + ((r.drop w.length).takeWhile isPySpace).length - 1) t
      | none => c :: replPrepGo 0 t
    else c :: replPrepGo 0 t
  | k + 1, _ :: t => replPrepGo k t

def replPrep (cs : List Char) : List Char := replPrepGo 0 cs

/-- natural_language_task_parser._extract_description. -/
def extract_description (query : String) (ti : TimeInfo) : String :=
  let d0 := stripL query.data
  let d1 := stripPat6 (stripPat5 (stripPat4 (stripPat3 (stripPat2 (stripPat1 d0)))))
  let d2 :=
    match ti.originalStr with
    | some ts => if ts.data.isEmpty then d1 else stripL (replAllL ts.data [' '] d1)
    | none => d1
  let d3 := dayKeywords.foldl (fun s kw => dropWordAnyCI [kw] s) d2
  let d4 := replPrep d3
  let d5 := stripL (collapseWs d4)
  let d6 := stripSetL ['.', ',', '!', '?'] d5
  let d7 := match d6 with
    | [] => []
    | c :: t => pyUpperChar c :: t
  if d7.isEmpty then "Task" else ⟨d7⟩

/-- The ParsedTask dictionary returned by parse_task. -/
structure ParsedTask where
  description : String
  scheduled : Option Nat
  timeDisplay : Option String
  timeString : Option String
  confidence : ℚ
  needsClar : Bool
  clarType : Option String
deriving Repr, DecidableEq

/-- natural_language_task_parser.parse_task: time extraction, then
description extraction, assembled into the result dictionary (every branch
of _extract_time sets the confidence key, so the 0.7 dictionary default of
the source is dead and the extracted confidence is copied through). -/
def parse_task (query : String) (now : Nat) (fz : String → Option Nat) :
    Except String ParsedTask :=
  match extract_time query now fz with
  | .error e => .error e
  | .ok ti =>
    .ok ⟨extract_description query ti, ti.scheduled, ti.display, ti.originalStr,
         ti.confidence, ti.needsClar, ti.clarType⟩

/-! Task detection gate (is_task_query). -/

/-- Search of the pattern a-whitespace-b, for the two-word keyword patterns
of the time-pattern table. -/
def wsJoinHere (a b : List Char) (cs : List Char) : Option Unit :=
  if prefixL a cs then
    match wsPlus (cs.drop a.length) with
    | some r => if prefixL b r then some () else none
    | none => none
  else none

def wsJoin (a b : String) (cs : List Char) : Bool :=
  (scanPos (wsJoinHere a.data b.data) cs).isSome

def weekdayNames : List String :=
  ["monday", "tuesday", "wednesday", "thursday", "friday", "saturday", "sunday"]

/-- Any pattern of the time-pattern table matches (the loop of
is_task_query over self.time_patterns, in table order). -/
def timePatternAny (ql : List Char) : Bool :=
  (scanPos (matchRelHere minuteUnits) ql).isSome ||
  (scanPos (matchRelHere hourUnits) ql).isSome ||
  (scanPos (matchRelHere dayUnits) ql).isSome ||
  (scanPos at12Here ql).isSome ||
  (scanPos (hm12Here true) ql).isSome ||
  (scanPos at24Here ql).isSome ||
  (scanPos hm24Here ql).isSome ||
  (scanPos atHourHere ql).isSome ||
  containsL "tomorrow".data ql ||
  containsL "today".data ql ||
  containsL "tonight".data ql ||
  wsJoin "next" "week" ql ||
  wsJoin "this" "evening" ql ||
  wsJoin "this" "morning" ql ||
  wsJoin "this" "afternoon" ql ||
  weekdayNames.any (fun d => containsL d.data ql)

def actionIndicators : List String := ["me", "to", "about", "for"]

/-- The task-phrase literals of is_task_query after the str.replace of x by
the digit-class text: plain substrings (the backslash-d never occurs in a
user query, making the first two checks inert, exactly as in the source). -/
def taskPhraseLiterals : List String :=
  ["in " ++ String.singleton (Char.ofNat 92) ++ "d+ minutes",
   "at " ++ String.singleton (Char.ofNat 92) ++ "d+ pm",
   "tomorrow", "tonight"]

/-- natural_language_task_parser.is_task_query. -/
def is_task_query (query : String) : Bool :=
  let ql := lowerL query.data
  taskVerbs.any (fun v => wordSearch ql v) ||
  (timePatternAny ql && actionIndicators.any (fun i => containsL i.data ql)) ||
  taskPhraseLiterals.any (fun p => containsL p.data ql)

/-! ## ContextResolver
(app/services/context_intelligence.py)

The in-memory per-conversation context dictionary; iso timestamp
bookkeeping (created_at, updated_at) is not modelled, the clarification
creation instant is threaded as an explicit now argument. -/

/-- The entity dictionary built by extract_entities; a key is present only
when its extracted value is truthy. -/
structure CIEntities where
  location : Option String
  time : Option String
  category : Option String
deriving Repr, DecidableEq

def emptyEntities : CIEntities := ⟨none, none, none⟩

/-- Python truthiness of the entity dictionary. -/
def entNonempty (e : CIEntities) : Bool :=
  e.location.isSome || e.time.isSome || e.category.isSome

/-- A clarification record of create_clarification. -/
structure Clarification where
  ctype : String
  originalQuery : String
  question : String
  createdAt : Nat
deriving Repr, DecidableEq

/-- The conversation context dictionary of get_context. -/
structure CICtx where
  pendingClarification : Option Clarification
  lastIntent : Option String
  extractedEntities : CIEntities
  conversationTopic : Option String
  lastQuery : Option String
  lastResponse : Option String
  queryHistory : List String
deriving Repr, DecidableEq

/-- The default context returned for an unknown conversation. -/
def freshCtx : CICtx := ⟨none, none, emptyEntities, none, none, none, []⟩

/-- Python truthiness of an optional string field. -/
def truthyOpt : Option String → Bool
  | some s => !s.isEmpty
  | none => false

/-- Follow-up markers of is_followup_query, in source order. -/
def followupMarkers : List String :=
  ["and ", "also ", "what about ", "how about ",
   "there", "that", "it", "yes", "no", "ok", "sure"]

/-- context_intelligence.is_followup_query. -/
def is_followup_query (query : String) (ctx : CICtx) : Bool :=
  ctx.pendingClarification.isSome ||
  (wordCount query ≤ 2 && truthyOpt ctx.lastQuery) ||
  followupMarkers.any (fun p => startsWithS (pyLower query) p)

/-- The abbreviation table of _expand_location, in source order. -/
def locationExpansions : List (String × String) :=
  [("hyd", "Hyderabad"), ("blr", "Bangalore"), ("blore", "Bangalore"),
   ("mum", "Mumbai"), ("del", "Delhi"), ("chn", "Chennai"), ("kol", "Kolkata"),
   ("pune", "Pune"), ("narayanaguda", "Narayanaguda, Hyderabad"),
   ("banjara hills", "Banjara Hills, Hyderabad"),
   ("hitech city", "Hitech City, Hyderabad"),
   ("koramangala", "Koramangala, Bangalore"),
   ("whitefield", "Whitefield, Bangalore")]

/-- context_intelligence._expand_location. -/
def expand_location (loc : String) : String :=
  let ll := pyStrip (pyLower loc)
  match locationExpansions.find? (fun p => p.1 = ll) with
  | some p => p.2
  | none => pyTitle loc

/-- The abbreviation table of _find_city_in_query, in source order. -/
def cityAbbrevs : List (String × String) :=
  [("hyd", "Hyderabad"), ("blr", "Bangalore"), ("blore", "Bangalore"),
   ("mum", "Mumbai"), ("del", "Delhi"), ("chn", "Chennai"), ("kol", "Kolkata")]

/-- The city gazetteer of _find_city_in_query, in source order. -/
def cityNames : List (String × String) :=
  [("mumbai", "Mumbai"), ("delhi", "Delhi"), ("bangalore", "Bangalore"),
   ("bengaluru", "Bangalore"), ("hyderabad", "Hyderabad"), ("chennai", "Chennai"),
   ("kolkata", "Kolkata"), ("pune", "Pune"), ("ahmedabad", "Ahmedabad"),
   ("jaipur", "Jaipur"), ("surat", "Surat"), ("lucknow", "Lucknow"),
   ("kanpur", "Kanpur"), ("nagpur", "Nagpur"), ("indore", "Indore"),
   ("thane", "Thane"), ("bhopal", "Bhopal"), ("visakhapatnam", "Visakhapatnam"),
   ("pimpri", "Pimpri-Chinchwad"), ("patna", "Patna"), ("vadodara", "Vadodara"),
   ("ghaziabad", "Ghaziabad"), ("ludhiana", "Ludhiana")]

/-- context_intelligence._find_city_in_query: abbreviations first, then
full city names, both by substring. -/
def find_city_in_query (q : String) : Option String :=
  match cityAbbrevs.find? (fun p => containsS q p.1) with
  | some p => some p.2
  | none => (cityNames.find? (fun p => containsS q p.1)).map Prod.snd

/-- context_intelligence._extract_location over the lowercased query: split
on an explicit in or at marker, else the gazetteer, else the previous
location from context when truthy. -/
def extract_location (q : String) (ctx : CICtx) : Option String :=
  if containsS q " in " then
    match (q.splitOn " in ").drop 1 with
    | part :: _ => some (expand_location (pyStrip part))
    | [] => none
  else if containsS q " at " then
    match (q.splitOn " at ").drop 1 with
    | part :: _ => some (expand_location (pyStrip part))
    | [] => none
  else
    match find_city_in_query q with
    | some c => some c
    | none =>
      match ctx.extractedEntities.location with
      | some l => if l.isEmpty then none else some l
      | none => none

/-- Time keywords of the context-resolver _extract_time, in source order. -/
def ciTimeKeywords : List String :=
  ["tomorrow", "today", "tonight", "morning", "evening", "afternoon", "now", "later"]

/-- context_intelligence._extract_time: first matching keyword substring. -/
def ci_extract_time (q : String) : Option String :=
  ciTimeKeywords.find? (fun k => containsS q k)

/-- The category table of _extract_category, in source order. -/
def ciCategories : List (String × List String) :=
  [("restaurant", ["restaurant", "food", "eat", "dining", "cafe"]),
   ("hotel", ["hotel", "stay", "accommodation"]),
   ("shopping", ["shop", "mall", "store", "market"]),
   ("hospital", ["hospital", "clinic", "doctor", "medical"]),
   ("movie", ["movie", "cinema", "theater", "film"]),
   ("gym", ["gym", "fitness", "workout"]),
   ("park", ["park", "garden"])]

/-- context_intelligence._extract_category. -/
def ci_extract_category (q : String) : Option String :=
  (ciCategories.find? (fun p => p.2.any (fun k => containsS q k))).map Prod.fst

/-- context_intelligence.extract_entities: a key is stored only when the
extracted value is truthy. -/
def extract_entities (query : String) (ctx : CICtx) : CIEntities :=
  let ql := pyLower query
  ⟨match extract_location ql ctx with
   | some l => if l.isEmpty then none else some l
   | none => none,
   ci_extract_time ql,
   ci_extract_category ql⟩

/-- context_intelligence.merge_with_context.  The follow-up substitution
branch indexes the first word of the stored last query, which raises
IndexError when that stored query is whitespace only; the escape is an
Except error, caught by the top-level handler of the orchestrator. -/
def merge_with_context (query : String) (ctx : CICtx) : Except String String :=
  let clarBranch : Option (Except String String) :=
    match ctx.pendingClarification with
    | some clar =>
      if clar.ctype = "location" then
        let loc0 :=
          match extract_location (pyLower query) ctx with
          | some l => if l.isEmpty then pyStrip query else l
          | none => pyStrip query
        some (.ok (clar.originalQuery ++ " in " ++ expand_location loc0))
      else if clar.ctype = "details" then
        some (.ok (clar.originalQuery ++ " " ++ query))
      else none
    | none => none
  match clarBranch with
  | some r => r
  | none =>
    if is_followup_query query ctx then
      if containsS (pyLower query) "what about" then
        let ns : String :=
          ⟨rstripSetL ['?'] (stripL (pyReplace (pyLower query) "what about" "").data)⟩
        if !ns.isEmpty && truthyOpt ctx.lastQuery then
          let lq := ctx.lastQuery.getD ""
          match ctx.extractedEntities.location with
          | some ol =>
            if ol.isEmpty then
              match pyWords lq with
              | [] => .error "IndexError: list index out of range"
              | w :: _ => .ok (String.mk w ++ " " ++ ns)
            else .ok (pyReplace lq (pyLower ol) ns)
          | none =>
            match pyWords lq with
            | [] => .error "IndexError: list index out of range"
            | w :: _ => .ok (String.mk w ++ " " ++ ns)
        else .ok query
      else .ok query
    else .ok query

/-- context_intelligence.create_clarification. -/
def create_clarification (ctype origQuery question : String) (now : Nat) :
    Clarification :=
  ⟨ctype, origQuery, question, now⟩

/-- Python truthiness of the location entry of the entity dictionary. -/
def hasLocationEntity (e : CIEntities) : Bool :=
  match e.location with
  | some l => !l.isEmpty
  | none => false

/-- context_intelligence.needs_clarification: location for a local search
without a location, location for a weather-flavoured live search without a
location, details for a one-word query outside factual and clarify. -/
def needs_clarification (query intent : String) (entities : CIEntities)
    (now : Nat) : Option Clarification :=
  if intent = "local_search" && !hasLocationEntity entities then
    some (create_clarification "location" query
      "Sure! To find that near you, could you please tell me your location?" now)
  else if intent = "live_search" && containsS (pyLower query) "weather" &&
      !hasLocationEntity entities then
    some (create_clarification "location" query
      (aposS "Which city" "s weather would you like to know?") now)
  else if wordCount query < 2 && intent ≠ "factual" && intent ≠ "clarify" then
    some (create_clarification "details" query
      (aposS "Could you provide more details about what you" "re looking for?") now)
  else none

/-! ## ProviderRouter
(app/services/model_router.py: route, _analyze_complexity,
_complexity_to_tier; tiers, keyword families and the intent-tier table) -/

/-- The complexity keyword families, in table order. -/
def simpleKeywords : List String :=
  ["what is", "who is", "when was", "where is",
   "define", "meaning of", "yes or no",
   "true or false", "is it", "does it"]

def mediumKeywords : List String :=
  ["explain", "how to", "why", "compare",
   "difference between", "summarize", "describe",
   "tell me about", "what are the"]

def complexKeywords : List String :=
  ["analyze", "evaluate", "assess", "critique",
   "pros and cons", "advantages disadvantages",
   "in depth", "detailed analysis", "reasoning"]

def creativeKeywords : List String :=
  ["write", "create", "design", "generate",
   "come up with", "invent", "imagine", "story"]

/-- The intent-tier lookup table of the router, in source order. -/
def intentTierMap : List (String × String) :=
  [("factual", "fast"), ("clarify", "balanced"), ("conversational", "balanced"),
   ("live_search", "balanced"), ("local_search", "balanced"),
   ("informational_search", "balanced"), ("web_search", "balanced"),
   ("complex_reasoning", "powerful"), ("autonomous_agent", "powerful"),
   ("task_automation", "powerful")]

/-- Provider of each tier in the model-configuration table. -/
def tierProvider (t : String) : String :=
  if t = "fast" then "groq"
  else if t = "balanced" then "gemini"
  else if t = "powerful" then "gemini"
  else "openai"

/-- Model of each tier in the model-configuration table. -/
def tierModel (t : String) : String :=
  if t = "fast" then "llama-3.3-70b-versatile"
  else if t = "balanced" then "gemini-1.5-flash"
  else if t = "powerful" then "gemini-1.5-pro"
  else "gpt-4-turbo"

/-- model_router._analyze_complexity: first keyword family containing a
substring of the lowercased query, in table order, else word-count buckets. -/
def analyze_complexity (query : String) : String :=
  let ql := pyLower query
  if simpleKeywords.any (fun p => containsS ql p) then "simple"
  else if mediumKeywords.any (fun p => containsS ql p) then "medium"
  else if complexKeywords.any (fun p => containsS ql p) then "complex"
  else if creativeKeywords.any (fun p => containsS ql p) then "creative"
  else if wordCount query ≤ 5 then "simple"
  else if wordCount query ≤ 15 then "medium"
  else "complex"

/-- model_router._complexity_to_tier: the four-entry mapping, with the
dictionary-get default of balanced. -/
def complexity_to_tier (c : String) : String :=
  if c = "simple" then "fast"
  else if c = "medium" then "balanced"
  else if c = "complex" then "powerful"
  else if c = "creative" then "powerful"
  else "balanced"

/-- The routing decision record (tier, provider, model, reasoning). -/
structure RouteInfo where
  tier : String
  provider : String
  model : String
  reasoning : String
deriving Repr, DecidableEq

def routeFor (tier reasoning : String) : RouteInfo :=
  ⟨tier, tierProvider tier, tierModel tier, reasoning⟩

/-- model_router.route: explicit preference, else the intent-tier table for
a truthy known intent, else complexity analysis.  The context argument is
accepted and ignored exactly as in the source. -/
def route (query : String) (intent : Option String) (_context : Option CICtx)
    (preferTier : Option String) : RouteInfo :=
  match preferTier with
  | some t => routeFor t ("Explicit preference: " ++ t)
  | none =>
    let viaIntent : Option RouteInfo :=
      match intent with
      | some i =>
        if i.isEmpty then none
        else (intentTierMap.find? (fun p => p.1 = i)).map
          (fun p => routeFor p.2 ("Intent-based: " ++ i ++ " → " ++ p.2))
      | none => none
    match viaIntent with
    | some r => r
    | none =>
      let c := analyze_complexity query
      let t := complexity_to_tier c
      routeFor t ("Complexity-based: " ++ c ++ " → " ++ t)

/-! ## IntentClassifier
(app/models/schemas.py Intent and app/services/ai_clients.classify_intent)

The external classifier backends are modelled by their outcomes: for each
Groq model attempted, none when the call failed or its content was missing,
empty or unparseable, and some response otherwise; the pydantic validation
of the response against the closed tag set then accepts or rejects it.  The
cache lookup and the outer critical failure are likewise modelled by their
outcomes.  -/

/-- The closed intent tag set of the pydantic schema, in source order,
including the legacy weather tag the schema still carries. -/
def validIntentTags : List String :=
  ["clarify", "factual", "live_search", "local_search",
   "informational_search", "set_reminder", "play_video", "get_weather",
   "send_email", "autonomous_plan", "escalate_medium", "escalate_powerful"]

/-- The Intent pydantic model: a tag and a parameter map. -/
structure Intent where
  intent : String
  parameters : List (String × String)
deriving Repr, DecidableEq

/-- Intent.model_validate: accept only a tag of the closed set. -/
def validateIntent (i : Intent) : Option Intent :=
  if validIntentTags.contains i.intent then some i else none

/-- ai_clients.classify_intent over the outcomes of its collaborators:
critical holds the message of an exception escaping the pre-loop machinery
(caught by the outer handler, which degrades to escalate_powerful); cache
holds a cache hit, accepted only when it validates; responses lists the
per-model backend outcomes in attempt order, each accepted only when present
and valid; when everything fails the Gemini-backup branch and the final
default both return factual. -/
def classify_intent (critical : Option String) (cache : Option Intent)
    (responses : List (Option Intent)) (geminiBackup : Bool) : Intent :=
  match critical with
  | some e => ⟨"escalate_powerful", [("error", e)]⟩
  | none =>
    match cache.bind validateIntent with
    | some i => i
    | none =>
      match responses.findSome? (fun r => r.bind validateIntent) with
      | some i => i
      | none =>
        if geminiBackup then ⟨"factual", []⟩ else ⟨"factual", []⟩

/-! ## ConversationStateStore
(app/services/conversation_state.py, the TTL-keyed facets)

The store is modelled by its three facets plus a reachability flag: when
down is set every Redis operation raises inside the method and the
surrounding try/except of the source swallows it, so a get returns none and
a save or clear leaves the store unchanged.  TTL expiry is outside any
claim here and is not modelled (an expired record is a store with that
facet already absent). -/

/-- The pending-task record saved by the orchestrator (the scheduled
instant stands for the iso-format string of the source, which determines
and is determined by it). -/
structure PendingRec where
  description : String
  scheduled : Nat
  timeDisplay : Option String
  confidence : ℚ
deriving Repr, DecidableEq

/-- The last-topic record of save_last_topic and get_last_topic. -/
structure TopicRec where
  topic : String
  entities : List (String × String)
  query : Option String
  responsePreview : Option String
  timestamp : Nat
deriving Repr, DecidableEq

/-- The TTL store for one conversation. -/
structure StoreState where
  down : Bool
  pending : Option PendingRec
  lastTopic : Option TopicRec
  confirmedCtx : Option (List (String × String))
deriving Repr, DecidableEq

def get_pending_task (s : StoreState) : Option PendingRec :=
  if s.down then none else s.pending

def save_pending_task (s : StoreState) (r : PendingRec) : StoreState :=
  if s.down then s else { s with pending := some r }

def clear_pending_task (s : StoreState) : StoreState :=
  if s.down then s else { s with pending := none }

def get_last_topic (s : StoreState) : Option TopicRec :=
  if s.down then none else s.lastTopic

/-- conversation_state.save_last_topic; defined by the source but, as the
claims below establish, never invoked by the orchestrator. -/
def save_last_topic (s : StoreState) (t : TopicRec) : StoreState :=
  if s.down then s else { s with lastTopic := some t }

def get_confirmed_context (s : StoreState) : Option (List (String × String)) :=
  if s.down then none else s.confirmedCtx

def save_confirmed_context (s : StoreState) (c : List (String × String)) :
    StoreState :=
  if s.down then s else { s with confirmedCtx := some c }

def clear_confirmed_context (s : StoreState) : StoreState :=
  if s.down then s else { s with confirmedCtx := none }

/-! ## Orchestrator
(app/orchestrator.py, handle_chat_request)

One conversation turn as a state transformer.  External collaborators are
oracle fields of the environment: the fuzzy date parse, the intent
classifier outcome for the merged query and stored last topic, and the
outcome of the reminder-creation block of the confirmation branch (user
lookup, iso parse and scheduling call together; an Except error is an
exception raised inside that try block).  The streamed text of each branch
is abstracted into a response tag carrying the data the text interpolates;
the session log records the appended messages.  The top-level exception
handler of the source turns any escaping exception into the generic error
reply. -/

/-- What a turn streams back, by originating branch. -/
inductive TurnResp where
  | taskConfirm (description : String) (timeDisplay : Option String)
  | taskCreated (description : String)
  | taskCreateFailed
  | taskCreateError (e : String)
  | taskCancelled
  | reAsk (description : String) (timeDisplay : Option String)
  | clarificationQuestion (q : String)
  | answered (intent : String) (tier : String)
  | errorReply
deriving Repr, DecidableEq

/-- One appended session-history message. -/
inductive SessionEntry where
  | userMsg (content : String)
  | assistantMsg (resp : TurnResp)
deriving Repr, DecidableEq

/-- The per-conversation world the turn reads and writes: whether the state
manager was initialised at startup (the Redis pool existed), the TTL store,
the in-memory resolver context, and the session log. -/
structure ConvState where
  mgrAvailable : Bool
  store : StoreState
  ctx : CICtx
  sessionLog : List SessionEntry
deriving Repr, DecidableEq

/-- Oracle outcomes of the external collaborators of one turn. -/
structure TurnEnv where
  now : Nat
  fz : String → Option Nat
  classifierOutcome : String → Option TopicRec → Intent
  scheduleOutcome : Except String Bool

/-- The conversation after the pending-task facet was saved. -/
def withPendingSaved (s : ConvState) (r : PendingRec) : ConvState :=
  { s with store := save_pending_task s.store r }

/-- The conversation after the pending-task facet was cleared. -/
def withPendingCleared (s : ConvState) : ConvState :=
  { s with store := clear_pending_task s.store }

/-- Priority 0.5, universal task detection: gate, parse (its escaping
ValueError is swallowed by the surrounding try), validation of description
and time, pending-task save when the manager exists, and the confirmation
reply; terminal when it fires. -/
def taskDetectStage (s : ConvState) (query : String) (env : TurnEnv) :
    Option (ConvState × TurnResp) :=
  if is_task_query query then
    match parse_task query env.now env.fz with
    | .error _ => none
    | .ok pt =>
      match pt.scheduled with
      | some t =>
        if pt.description.isEmpty then none
        else
          some
            (if s.mgrAvailable then withPendingSaved s
              (PendingRec.mk pt.description t pt.timeDisplay pt.confidence)
             else s,
             .taskConfirm pt.description pt.timeDisplay)
      | none => none
  else none

/-- Priority 0.6, pending-task confirmation handling: confirm, reject, or
re-ask; terminal whenever a pending task was retrieved. -/
def pendingStage (s : ConvState) (query : String) (env : TurnEnv) :
    Option (ConvState × TurnResp) :=
  match (if s.mgrAvailable then get_pending_task s.store else none) with
  | some pt =>
    if s.mgrAvailable && is_confirmation_phrase query then
      match env.scheduleOutcome with
      | .ok success =>
        if success then some (withPendingCleared s, .taskCreated pt.description)
        else some (withPendingCleared s, .taskCreateFailed)
      | .error e => some (s, .taskCreateError e)
    else if s.mgrAvailable && is_rejection_phrase query then
      some (withPendingCleared s, .taskCancelled)
    else some (s, .reAsk pt.description pt.timeDisplay)
  | none => none

/-- Priorities 1.0 to the end: context merge, entity extraction, intent
classification (the module-global state manager is dereferenced unguarded
for the last-topic read, so an uninitialised manager raises and the turn
falls to the top-level handler), the clarification gate, execution by
intent, and session persistence. -/
def mainStage (s : ConvState) (query : String) (env : TurnEnv) :
    ConvState × TurnResp :=
  let ctx := s.ctx
  let mergedE : Except String String :=
    if is_followup_query query ctx then merge_with_context query ctx else .ok query
  match mergedE with
  | .error _ => (s, .errorReply)
  | .ok q1 =>
    let entities := extract_entities q1 ctx
    if !s.mgrAvailable then (s, .errorReply)
    else
      let lastTopic := get_last_topic s.store
      let intentData := env.classifierOutcome q1 lastTopic
      let intent := intentData.intent
      match needs_clarification q1 intent entities env.now,
            ctx.pendingClarification with
      | some clar, none =>
        let ctx1 := { ctx with pendingClarification := some clar,
                               lastQuery := some q1, lastIntent := some intent }
        ({ s with ctx := ctx1 }, .clarificationQuestion clar.question)
      | _, _ =>
        let ctx1 :=
          if ctx.pendingClarification.isSome && entNonempty entities then
            { ctx with pendingClarification := none }
          else ctx
        let ctx2 := { ctx1 with lastQuery := some q1, lastIntent := some intent,
                                extractedEntities := entities,
                                queryHistory := ctx.queryHistory ++ [q1] }
        let routeInfo := route q1 (some intent) (some ctx2) none
        let resp := TurnResp.answered intent routeInfo.tier
        ({ s with ctx := ctx2,
                  sessionLog := s.sessionLog ++ [.userMsg q1, .assistantMsg resp] },
         resp)

/-- orchestrator.handle_chat_request for one turn: the three stages in
priority order, the first terminal one deciding the turn. -/
def handleTurn (s : ConvState) (query : String) (env : TurnEnv) :
    ConvState × TurnResp :=
  match taskDetectStage s query env with
  | some out => out
  | none =>
    match pendingStage s query env with
    | some out => out
    | none => mainStage s query env

/-! ## Concrete fixtures used by the closed theorems below -/

/-- A fuzzy-parse oracle for inputs carrying no date information, where
dateutil raises and the branch falls through. -/
def fzNone : String → Option Nat := fun _ => none

/-- A classifier outcome fixed at factual with no parameters. -/
def classifierFactual : String → Option TopicRec → Intent := fun _ _ => ⟨"factual", []⟩

/-- An environment whose external calls all behave: no fuzzy date, factual
classification, successful scheduling. -/
def envNoExternal : TurnEnv := ⟨1000000, fzNone, classifierFactual, .ok true⟩

/-- The pending task left by the turn remind me to call mom in 5 minutes. -/
def pendCallMom : PendingRec := ⟨"Call mom", 1000300, some "in 5 minutes", 1⟩

def storeWithPending : StoreState := ⟨false, some pendCallMom, none, none⟩

/-- A healthy conversation holding a pending task awaiting confirmation. -/
def statePendingCallMom : ConvState := ⟨true, storeWithPending, freshCtx, []⟩

/-- A conversation whose manager exists but whose store operations fail. -/
def stateStoreDown : ConvState := ⟨true, ⟨true, none, none, none⟩, freshCtx, []⟩

/-- A conversation in a process whose Redis pool was unavailable at startup,
so the lazily initialised state manager is absent. -/
def stateNoMgr : ConvState := ⟨false, ⟨false, none, none, none⟩, freshCtx, []⟩

/-- The intent tag set named by the specification sentence of claim C2
(stated from the words of the spec, for comparison with the tag set of the
schema in the source). -/
def specClaimedIntentTags : List String :=
  ["clarify", "factual", "live_search", "local_search",
   "informational_search", "set_reminder", "play_video", "send_email",
   "escalate_medium", "autonomous_plan", "escalate_powerful"]

/-- The parse of remind me to call mom in 5 minutes at instant 1000000. -/
def callMomParsed : ParsedTask :=
  ⟨"Call mom", some 1000300, some "in 5 minutes", some "in 5 minutes", 1, false, none⟩

/-! ## Frame lemmas for the store and the turn stages -/

theorem save_pending_task_lastTopic (st : StoreState) (r : PendingRec) :
    (save_pending_task st r).lastTopic = st.lastTopic := by
  unfold save_pending_task; split <;> rfl

theorem clear_pending_task_lastTopic (st : StoreState) :
    (clear_pending_task st).lastTopic = st.lastTopic := by
  unfold clear_pending_task; split <;> rfl

theorem withPendingSaved_lastTopic (s : ConvState) (r : PendingRec) :
    (withPendingSaved s r).store.lastTopic = s.store.lastTopic :=
  save_pending_task_lastTopic s.store r

theorem withPendingCleared_lastTopic (s : ConvState) :
    (withPendingCleared s).store.lastTopic = s.store.lastTopic :=
  clear_pending_task_lastTopic s.store

theorem taskDetectStage_lastTopic {s : ConvState} {q : String} {env : TurnEnv}
    {out : ConvState × TurnResp} (h : taskDetectStage s q env = some out) :
    out.1.store.lastTopic = s.store.lastTopic := by
  unfold taskDetectStage at h
  repeat' split at h
  all_goals first
    | exact Option.noConfusion h
    | (cases h
       first
         | rfl
         | exact withPendingSaved_lastTopic s _)

theorem pendingStage_lastTopic {s : ConvState} {q : String} {env : TurnEnv}
    {out : ConvState × TurnResp} (h : pendingStage s q env = some out) :
    out.1.store.lastTopic = s.store.lastTopic := by
  unfold pendingStage at h
  repeat' split at h
  all_goals first
    | exact Option.noConfusion h
    | (cases h
       first
         | rfl
         | exact withPendingCleared_lastTopic s)

theorem mainStage_store {s : ConvState} {q : String} {env : TurnEnv} :
    (mainStage s q env).1.store = s.store := by
  unfold mainStage
  dsimp only
  repeat' split
  all_goals rfl

/-! ## Claim theorems -/

/-- Claim C1: the specification says the orchestrator updates the stored
last_topic when persisting every executed turn, but handle_chat_request
never invokes save_last_topic on any path, so the last-topic facet of the
store is unchanged by every turn, whatever branch it takes. -/
theorem C1_last_topic_never_updated (s : ConvState) (q : String) (env : TurnEnv) :
    (handleTurn s q env).1.store.lastTopic = s.store.lastTopic := by
  unfold handleTurn
  rcases htd : taskDetectStage s q env with _ | out
  · rcases hpd : pendingStage s q env with _ | out2
    · simp only [htd, hpd]
      exact congrArg StoreState.lastTopic mainStage_store
    · simp only [htd, hpd]
      exact pendingStage_lastTopic hpd
  · simp only [htd]
    exact taskDetectStage_lastTopic htd

/-- Claim C3 counterexample: the confirmation and rejection classifiers are
not disjoint; the input not good contains the positive phrase good and the
rejection phrase no, so both predicates hold. -/
theorem C3_counterexample :
    is_confirmation_phrase "not good" = true ∧
    is_rejection_phrase "not good" = true := by
  exact ⟨rfl, rfl⟩

/-- Claim C3 amended: the example classifications hold and the fixed phrase
lists themselves are disjoint, but the predicates, which match by substring
containment, are not disjoint as functions: some input satisfies both. -/
theorem C3_examples_hold_predicates_overlap :
    is_confirmation_phrase "yes" = true ∧
    is_confirmation_phrase "create it" = true ∧
    is_rejection_phrase "never mind" = true ∧
    (directConfirms ++ actionConfirms ++ positiveConfirms).all
      (fun p => !(rejectionPhrases.contains p)) = true ∧
    ∃ q : String, is_confirmation_phrase q = true ∧ is_rejection_phrase q = true :=
  ⟨rfl, rfl, rfl, rfl, "not good", rfl, rfl⟩

/-- Claim C5 counterexample: for a one-word local-search query carrying a
location entity, needs_clarification does not return none; the vague-query
check fires and returns a details clarification. -/
theorem C5_counterexample :
    needs_clarification "hyd" "local_search"
      ⟨some "Hyderabad", none, none⟩ 0 =
      some ⟨"details", "hyd",
        aposS "Could you provide more details about what you" "re looking for?", 0⟩ ∧
    needs_clarification "hyd" "local_search"
      ⟨some "Hyderabad", none, none⟩ 0 ≠ none := by
  constructor
  · rfl
  · intro h
    rw [show needs_clarification "hyd" "local_search"
          (CIEntities.mk (some "Hyderabad") none none) 0 =
        some ⟨"details", "hyd",
          aposS "Could you provide more details about what you" "re looking for?", 0⟩
      from rfl] at h
    exact Option.noConfusion h

/-- Claim C5 amended: needs_clarification returns a location clarification
whenever the intent is local_search and the entity map carries no truthy
location, and returns none for a local_search query with a location entity
provided the query has at least two words (a one-word query instead triggers
the vague-query details clarification). -/
theorem C5_local_search_clarification (q : String) (ents : CIEntities) (now : Nat) :
    (hasLocationEntity ents = false →
      needs_clarification q "local_search" ents now =
        some (create_clarification "location" q
          "Sure! To find that near you, could you please tell me your location?" now)) ∧
    (hasLocationEntity ents = true → 2 ≤ wordCount q →
      needs_clarification q "local_search" ents now = none) := by
  constructor
  · intro h
    unfold needs_clarification
    simp [h]
  · intro h hw
    have hlt : ¬ (wordCount q < 2) := by omega
    unfold needs_clarification
    simp [h, hlt]

/-- Claim C5 witness: both parts of the amended statement at concrete
inputs. -/
theorem C5_witness :
    needs_clarification "restaurants near me" "local_search" emptyEntities 7 =
      some (create_clarification "location" "restaurants near me"
        "Sure! To find that near you, could you please tell me your location?" 7) ∧
    needs_clarification "restaurants near me" "local_search"
      ⟨some "Hyderabad", none, none⟩ 7 = none :=
  ⟨(C5_local_search_clarification "restaurants near me" emptyEntities 7).1 rfl,
   (C5_local_search_clarification "restaurants near me"
      ⟨some "Hyderabad", none, none⟩ 7).2 rfl (by decide)⟩

/-- Claim C7 counterexample: a query of the creative keyword family routes
to the powerful tier, not the premium tier the claim names. -/
theorem C7_counterexample :
    analyze_complexity "write a poem" = "creative" ∧
    route "write a poem" none none none =
      ⟨"powerful", "gemini", "gemini-1.5-pro", "Complexity-based: creative → powerful"⟩ ∧
    (route "write a poem" none none none).tier ≠ "premium" := by
  refine ⟨rfl, rfl, ?_⟩
  intro h
  rw [show (route "write a poem" none none none).tier = "powerful" from rfl] at h
  exact absurd h (by decide)

/-- Claim C7 amended: with no intent-based lookup, route maps the four
keyword families simple, medium, complex, creative to the tiers fast,
balanced, powerful and again powerful (premium is never produced by
complexity analysis), with the word-count fallback of at most five words to
fast, at most fifteen to balanced, and longer to powerful. -/
theorem C7_complexity_routing (q : String) :
    (simpleKeywords.any (fun p => containsS (pyLower q) p) = true →
      (route q none none none).tier = "fast") ∧
    (simpleKeywords.any (fun p => containsS (pyLower q) p) = false →
      mediumKeywords.any (fun p => containsS (pyLower q) p) = true →
      (route q none none none).tier = "balanced") ∧
    (simpleKeywords.any (fun p => containsS (pyLower q) p) = false →
      mediumKeywords.any (fun p => containsS (pyLower q) p) = false →
      complexKeywords.any (fun p => containsS (pyLower q) p) = true →
      (route q none none none).tier = "powerful") ∧
    (simpleKeywords.any (fun p => containsS (pyLower q) p) = false →
      mediumKeywords.any (fun p => containsS (pyLower q) p) = false →
      complexKeywords.any (fun p => containsS (pyLower q) p) = false →
      creativeKeywords.any (fun p => containsS (pyLower q) p) = true →
      (route q none none none).tier = "powerful") ∧
    (simpleKeywords.any (fun p => containsS (pyLower q) p) = false →
      mediumKeywords.any (fun p => containsS (pyLower q) p) = false →
      complexKeywords.any (fun p => containsS (pyLower q) p) = false →
      creativeKeywords.any (fun p => containsS (pyLower q) p) = false →
      ((wordCount q ≤ 5 → (route q none none none).tier = "fast") ∧
       (¬ wordCount q ≤ 5 → wordCount q ≤ 15 →
         (route q none none none).tier = "balanced") ∧
       (¬ wordCount q ≤ 15 → (route q none none none).tier = "powerful"))) := by
  have hr : (route q none none none).tier =
      complexity_to_tier (analyze_complexity q) := rfl
  refine ⟨?_, ?_, ?_, ?_, ?_⟩
  · intro h1
    rw [hr]
    unfold analyze_complexity
    simp only [h1, if_true]
    rfl
  · intro h1 h2
    rw [hr]
    unfold analyze_complexity
    simp only [h1, h2]
    rfl
  · intro h1 h2 h3
    rw [hr]
    unfold analyze_complexity
    simp only [h1, h2, h3]
    rfl
  · intro h1 h2 h3 h4
    rw [hr]
    unfold analyze_complexity
    simp only [h1, h2, h3, h4]
    rfl
  · intro h1 h2 h3 h4
    refine ⟨?_, ?_, ?_⟩
    · intro h5
      rw [hr]
      unfold analyze_complexity
      simp only [h1, h2, h3, h4, h5]
      rfl
    · intro h5 h6
      rw [hr]
      unfold analyze_complexity
      simp only [h1, h2, h3, h4, h5, h6]
      rfl
    · intro h6
      have h5 : ¬ wordCount q ≤ 5 := by omega
      rw [hr]
      unfold analyze_complexity
      simp only [h1, h2, h3, h4, h5, h6]
      rfl

/-- Claim C7 witness: the amended statement applied to a creative-family
query and to keyword-free queries of each length bucket. -/
theorem C7_witness :
    (route "write a story please" none none none).tier = "powerful" ∧
    (route "fetch the ball" none none none).tier = "fast" ∧
    (route "one two three four five six seven" none none none).tier = "balanced" :=
  ⟨(C7_complexity_routing "write a story please").2.2.2.1 rfl rfl rfl rfl,
   ((C7_complexity_routing "fetch the ball").2.2.2.2 rfl rfl rfl rfl).1 (by decide),
   (((C7_complexity_routing
      "one two three four five six seven").2.2.2.2 rfl rfl rfl rfl).2.1
      (by decide) (by decide))⟩

/-! Validation helpers for the intent classifier. -/

theorem validateIntent_mem {i j : Intent} (h : validateIntent i = some j) :
    validIntentTags.contains j.intent = true := by
  unfold validateIntent at h
  split at h
  · cases h; assumption
  · exact Option.noConfusion h

theorem findSome_validate_mem (rs : List (Option Intent)) {i : Intent}
    (h : rs.findSome? (fun r => r.bind validateIntent) = some i) :
    validIntentTags.contains i.intent = true := by
  induction rs with
  | nil => exact Option.noConfusion h
  | cons r t ih =>
    rw [List.findSome?_cons] at h
    cases hr : r.bind validateIntent with
    | some j =>
      simp only [hr] at h
      cases h
      exact validateIntent_mem (Option.bind_eq_some.mp hr).choose_spec.2
    | none =>
      simp only [hr] at h
      exact ih h

theorem findSome_none_of_all_none (rs : List (Option Intent))
    (h : rs.all Option.isNone = true) :
    rs.findSome? (fun r => r.bind validateIntent) = none := by
  induction rs with
  | nil => rfl
  | cons r t ih =>
    rw [List.all_cons, Bool.and_eq_true] at h
    have hr : r = none := Option.eq_none_of_isNone h.1
    rw [List.findSome?_cons, hr]
    exact ih h.2

/-- Claim C2 amended: classify_intent always returns a tag of the closed
schema set, which additionally carries the legacy tag get_weather, so a
structurally valid backend answer with that tag is accepted and returned;
when every backend attempt fails it degrades to factual, and a failure of
the pre-loop machinery itself degrades to escalate_powerful. -/
theorem C2_tag_closed_and_degrades :
    (∀ (crit : Option String) (cache : Option Intent)
       (rs : List (Option Intent)) (g : Bool),
      validIntentTags.contains (classify_intent crit cache rs g).intent = true) ∧
    (∀ (rs : List (Option Intent)) (g : Bool), rs.all Option.isNone = true →
      classify_intent none none rs g = ⟨"factual", []⟩) ∧
    (∀ (e : String) (cache : Option Intent) (rs : List (Option Intent)) (g : Bool),
      classify_intent (some e) cache rs g = ⟨"escalate_powerful", [("error", e)]⟩) := by
  refine ⟨?_, ?_, ?_⟩
  · intro crit cache rs g
    unfold classify_intent
    cases crit with
    | some e => rfl
    | none =>
      cases hc : cache.bind validateIntent with
      | some i =>
        simp only [hc]
        exact validateIntent_mem (Option.bind_eq_some.mp hc).choose_spec.2
      | none =>
        simp only [hc]
        cases hf : rs.findSome? (fun r => r.bind validateIntent) with
        | some i =>
          simp only [hf]
          exact findSome_validate_mem rs hf
        | none =>
          simp only [hf]
          cases g <;> rfl
  · intro rs g h
    unfold classify_intent
    simp only [Option.bind_none, findSome_none_of_all_none rs h]
    cases g <;> rfl
  · intro e cache rs g
    rfl

/-- Claim C2 witness: the amended statement at concrete outcomes, one per
conjunct. -/
theorem C2_degradation_witness :
    validIntentTags.contains (classify_intent none none [] false).intent = true ∧
    classify_intent none none [none] true = ⟨"factual", []⟩ ∧
    classify_intent (some "no backend reachable") none [] false =
      ⟨"escalate_powerful", [("error", "no backend reachable")]⟩ :=
  ⟨C2_tag_closed_and_degrades.1 none none [] false,
   C2_tag_closed_and_degrades.2.1 [none] true rfl,
   C2_tag_closed_and_degrades.2.2 "no backend reachable" none [] false⟩

/-- Claim C2 counterexample: a structurally valid backend response carrying
the legacy tag get_weather passes validation and is returned, although that
tag lies outside the fixed set the claim names. -/
theorem C2_counterexample :
    classify_intent none none [some ⟨"get_weather", []⟩] false =
      ⟨"get_weather", []⟩ ∧
    specClaimedIntentTags.contains "get_weather" = false :=
  ⟨rfl, rfl⟩

/-- Claim C8: whenever the lowercased query matches the relative-offset
pattern in-N-minutes, parse_task succeeds with the scheduled instant
exactly N minutes after now and confidence one. -/
theorem C8_in_minutes (q : String) (now : Nat) (fz : String → Option Nat)
    (n : Nat) (g : List Char)
    (h : scanPos (matchRelHere minuteUnits) (lowerL q.data) = some (n, g)) :
    ∃ t : ParsedTask, parse_task q now fz = Except.ok t ∧
      t.scheduled = some (now + 60 * n) ∧ t.confidence = 1 := by
  unfold parse_task extract_time
  simp only [h]
  exact ⟨_, rfl, rfl, rfl⟩

set_option maxHeartbeats 4000000 in
/-- Claim C8 witness: the property at a concrete five-minute reminder. -/
theorem C8_witness :
    ∃ t : ParsedTask,
      parse_task "remind me to call mom in 5 minutes" 1000000 fzNone =
        Except.ok t ∧
      t.scheduled = some (1000000 + 60 * 5) ∧ t.confidence = 1 :=
  C8_in_minutes "remind me to call mom in 5 minutes" 1000000 fzNone 5
    "in 5 minutes".data (by rfl)

/-! Invariant helpers for the parsed-task claims. -/

theorem extract_time_ok_inv {q : String} {now : Nat} {fz : String → Option Nat}
    {ti : TimeInfo} (h : extract_time q now fz = Except.ok ti) :
    ((0:ℚ) ≤ ti.confidence ∧ ti.confidence ≤ 1) ∧
    (ti.scheduled = none → ti.confidence = 0 ∧ ti.needsClar = true) := by
  unfold extract_time at h
  dsimp only at h
  repeat' split at h
  all_goals first
    | exact Except.noConfusion h
    | (cases h
       refine ⟨⟨by norm_num, by norm_num⟩, ?_⟩
       intro hs
       first
         | exact Option.noConfusion hs
         | exact ⟨rfl, rfl⟩)

theorem mkOrTask_ne_empty (cs : List Char) :
    (if cs.isEmpty then ("Task" : String) else ⟨cs⟩) ≠ "" := by
  split
  · decide
  · next hne =>
    intro hEq
    apply hne
    have hd : cs = [] := congrArg String.data hEq
    simp [hd]

theorem extract_description_ne_empty (q : String) (ti : TimeInfo) :
    extract_description q ti ≠ "" := by
  unfold extract_description
  exact mkOrTask_ne_empty _

set_option maxHeartbeats 4000000 in
/-- Claim C9 amended: every ParsedTask that parse_task returns has a
confidence in the unit interval and, when the scheduled instant is absent,
confidence zero with the needs-clarification flag set; the description is a
non-empty string, defaulting to Task when extraction leaves the empty
string, but in edge cases it can consist of whitespace or punctuation
residue alone, so it need not be non-empty after trimming. -/
theorem C9_parsed_task_invariant (q : String) (now : Nat)
    (fz : String → Option Nat) (t : ParsedTask)
    (h : parse_task q now fz = Except.ok t) :
    ((0:ℚ) ≤ t.confidence ∧ t.confidence ≤ 1) ∧
    (t.scheduled = none → t.confidence = 0 ∧ t.needsClar = true) ∧
    t.description ≠ "" := by
  unfold parse_task at h
  split at h
  · exact Except.noConfusion h
  · rename_i ti heq
    cases h
    have hi := extract_time_ok_inv heq
    exact ⟨hi.1, fun hs => hi.2 hs, extract_description_ne_empty q ti⟩

set_option maxHeartbeats 4000000 in
/-- Claim C9 witness: the amended invariant at a concrete parse. -/
theorem C9_invariant_witness :
    ((0:ℚ) ≤ callMomParsed.confidence ∧ callMomParsed.confidence ≤ 1) ∧
    (callMomParsed.scheduled = none →
      callMomParsed.confidence = 0 ∧ callMomParsed.needsClar = true) ∧
    callMomParsed.description ≠ "" :=
  C9_parsed_task_invariant "remind me to call mom in 5 minutes" 1000000 fzNone
    callMomParsed (by rfl)

/-- Claim C9 counterexample: on the query made of punctuation and a space,
parse_task succeeds with the single-space description, which is non-empty
as a raw string yet empty after trimming and is not the Task default, so
the trimmed-non-emptiness the claim states fails. -/
theorem C9_counterexample :
    parse_task ". ." 0 fzNone =
      Except.ok ⟨" ", none, none, none, 0, true, some "time"⟩ ∧
    pyStrip " " = "" ∧ (" " : String) ≠ "Task" := by
  refine ⟨by rfl, rfl, by decide⟩

/-- Claim C4 amended: with the state manager initialised and the store up,
a turn whose reply does not trigger the task-detect stage and matches
neither the confirmation nor the rejection phrase set leaves the stored
pending task unchanged, re-asks the confirmation question, and the next
get_pending_task returns the same record.  (Without the task-detect
hypothesis the claim fails: a task-shaped unclear reply replaces the
pending task, see the counterexample.) -/
theorem C4_unclear_reply_preserves_pending (s : ConvState) (q : String)
    (env : TurnEnv) (t : PendingRec)
    (hm : s.mgrAvailable = true) (hd : s.store.down = false)
    (hp : s.store.pending = some t)
    (htd : taskDetectStage s q env = none)
    (hc : is_confirmation_phrase q = false)
    (hr : is_rejection_phrase q = false) :
    handleTurn s q env = (s, .reAsk t.description t.timeDisplay) ∧
    get_pending_task (handleTurn s q env).1.store = some t := by
  have hg : get_pending_task s.store = some t := by
    unfold get_pending_task
    simp [hd, hp]
  have hturn : handleTurn s q env = (s, .reAsk t.description t.timeDisplay) := by
    unfold handleTurn
    rw [htd]
    unfold pendingStage
    rw [hm]
    simp only [if_true, hg, hc, hr, Bool.true_and, Bool.and_false, Bool.false_eq_true,
      if_false]
  refine ⟨hturn, ?_⟩
  rw [hturn]
  exact hg

set_option maxHeartbeats 4000000 in
/-- Claim C4 witness: the amended statement at a concrete unclear reply. -/
theorem C4_witness :
    handleTurn statePendingCallMom "hmm maybe" envNoExternal =
      (statePendingCallMom,
       .reAsk pendCallMom.description pendCallMom.timeDisplay) ∧
    get_pending_task
      (handleTurn statePendingCallMom "hmm maybe" envNoExternal).1.store =
      some pendCallMom :=
  C4_unclear_reply_preserves_pending statePendingCallMom "hmm maybe"
    envNoExternal pendCallMom rfl rfl rfl (by decide) (by decide) (by decide)

set_option maxHeartbeats 4000000 in
/-- Claim C4 counterexample: a reply that matches neither the confirmation
nor the rejection phrase set but is task-shaped replaces the stored pending
task through the earlier task-detect stage, so the claim as stated fails. -/
theorem C4_counterexample :
    is_confirmation_phrase "remind me to check the oven in 5 minutes" = false ∧
    is_rejection_phrase "remind me to check the oven in 5 minutes" = false ∧
    (handleTurn statePendingCallMom
      "remind me to check the oven in 5 minutes" envNoExternal).1.store.pending =
      some ⟨"Check the oven", 1000300, some "in 5 minutes", 1⟩ ∧
    some (PendingRec.mk "Check the oven" 1000300 (some "in 5 minutes") 1) ≠
      some pendCallMom := by
  refine ⟨rfl, rfl, by rfl, by decide⟩

/-- Claim C6: the store operations are best-effort exactly as specified
when the manager exists (a down store makes every get absent and every save
or clear a no-op, and the turn still reaches a normal response), but when
the TTL store was unreachable at startup the state manager is never
initialised and any turn reaching the intent-classification stage
dereferences the absent manager and ends in the generic error reply instead
of proceeding without context. -/
theorem C6_store_best_effort_and_startup_gap :
    (∀ st : StoreState, st.down = true →
      get_pending_task st = none ∧ get_last_topic st = none ∧
      get_confirmed_context st = none) ∧
    (∀ (st : StoreState) (r : PendingRec), st.down = true →
      save_pending_task st r = st) ∧
    (∀ st : StoreState, st.down = true → clear_pending_task st = st) ∧
    (∀ (st : StoreState) (tp : TopicRec), st.down = true →
      save_last_topic st tp = st) ∧
    ((handleTurn stateStoreDown "hello" envNoExternal).2 =
        .answered "factual" "fast" ∧
      (handleTurn stateStoreDown "hello" envNoExternal).1.store =
        stateStoreDown.store) ∧
    (handleTurn stateNoMgr "hello" envNoExternal).2 = .errorReply := by
  refine ⟨?_, ?_, ?_, ?_, ⟨by rfl, by rfl⟩, by rfl⟩
  · intro st h
    unfold get_pending_task get_last_topic get_confirmed_context
    simp [h]
  · intro st r h
    unfold save_pending_task
    simp [h]
  · intro st h
    unfold clear_pending_task
    simp [h]
  · intro st tp h
    unfold save_last_topic
    simp [h]

/-- Claim C6 witness: the store-operation conjuncts at a concrete down
store. -/
theorem C6_witness :
    get_pending_task ⟨true, some pendCallMom, none, none⟩ = none ∧
    save_pending_task ⟨true, none, none, none⟩ pendCallMom =
      ⟨true, none, none, none⟩ ∧
    clear_pending_task ⟨true, some pendCallMom, none, none⟩ =
      ⟨true, some pendCallMom, none, none⟩ :=
  ⟨(C6_store_best_effort_and_startup_gap.1 ⟨true, some pendCallMom, none, none⟩ rfl).1,
   C6_store_best_effort_and_startup_gap.2.1 ⟨true, none, none, none⟩ pendCallMom rfl,
   C6_store_best_effort_and_startup_gap.2.2.1 ⟨true, some pendCallMom, none, none⟩ rfl⟩

set_option maxHeartbeats 4000000 in
/-- Claim C10: is_rejection_phrase holds for every utterance whose
lowercased stripped text contains any fixed rejection phrase as a
substring, including no inside a longer word; consequently, with a pending
task, the reply see you at noon, which is not task-shaped and matches no
confirmation phrase, is treated as a rejection: the turn cancels and the
pending task is cleared. -/
theorem C10_rejection_substring_cancels :
    (∀ (q p : String), p ∈ rejectionPhrases →
      containsS (pyStrip (pyLower q)) p = true → is_rejection_phrase q = true) ∧
    is_task_query "see you at noon" = false ∧
    is_confirmation_phrase "see you at noon" = false ∧
    is_rejection_phrase "see you at noon" = true ∧
    (handleTurn statePendingCallMom "see you at noon" envNoExternal).2 =
      .taskCancelled ∧
    (handleTurn statePendingCallMom
      "see you at noon" envNoExternal).1.store.pending = none := by
  refine ⟨?_, rfl, rfl, rfl, by rfl, by rfl⟩
  intro q p hp hc
  unfold is_rejection_phrase
  exact List.any_eq_true.mpr ⟨p, hp, hc⟩

/-- Claim C10 witness: the substring property applied at the phrase no
occurring inside the word noon. -/
theorem C10_witness : is_rejection_phrase "see you at noon" = true :=
  C10_rejection_substring_cancels.1 "see you at noon" "no" (by decide) (by decide)

end Aurion
